import Mathlib

/-!
# A shallow embedding of the corastuff job-queue core

This file models the persistent job queue of the repository
(`src/job_queue.py`), the worker's job-execution decision logic
(`src/worker.py`), and the scheduler tick (`src/scheduler.py`,
`src/db.py::get_due_schedules`), and proves properties of the model.

Conventions of the embedding:
* SQL rows become Lean structures; the two tables `job_queue` and
  `scrape_runs` become lists of rows inside a `QueueState`, together with
  the next fresh rowid for each table (SQLite rowids start at 1).
* ISO-8601 UTC timestamp strings compare lexicographically in the source,
  which coincides with chronological order; we model timestamps as `Nat`
  (seconds).  `timedelta(minutes=m)` becomes `m * 60`.
* Statuses are kept as the literal strings the SQL stores.
* Each Python method that opens a connection, executes statements and
  commits becomes one Lean function on `QueueState` (the transaction is
  the function).
* Float payloads (`duration_seconds`) are carried as opaque `Nat` values;
  no claim computes with them.
-/

/-- Constant `STALE_JOB_TIMEOUT_MINUTES = 30` from `job_queue.py`. -/
def STALE_JOB_TIMEOUT_MINUTES : Nat := 30

/-- A row of the `job_queue` table (schema in `db.py`, lines 163-176). -/
structure Job where
  id : Nat
  scraper_name : String
  status : String
  priority : Int
  created_at : Nat
  claimed_at : Option Nat
  completed_at : Option Nat
  worker_id : Option String
  scrape_run_id : Nat
  error_message : Option String
  retry_count : Nat
  max_retries : Nat
  deriving DecidableEq

/-- A row of the `scrape_runs` table. -/
structure ScrapeRun where
  id : Nat
  scraper_name : String
  status : String
  started_at : Option Nat
  completed_at : Option Nat
  products_found : Option Nat
  error_message : Option String
  duration_seconds : Option Nat
  deriving DecidableEq

/-- The durable store seen by `JobQueue`: both tables plus the next
fresh rowid of each. -/
structure QueueState where
  jobs : List Job
  runs : List ScrapeRun
  next_job_id : Nat
  next_run_id : Nat
  deriving DecidableEq

/-- The empty store; SQLite rowids start at 1. -/
def QueueState.empty : QueueState :=
  { jobs := [], runs := [], next_job_id := 1, next_run_id := 1 }

/-- Embeds `JobQueue.enqueue(scraper_name, priority=0, source="manual")`:
one transaction inserting a pending ScrapeRun (with `started_at = now`)
and a pending Job referencing it.  The `source` argument is accepted by
the Python signature but not stored by either INSERT.  `retry_count`
and `max_retries` take their schema defaults 0 and 3. -/
def enqueue (s : QueueState) (scraper_name : String) (priority : Int)
    (source : String) (now : Nat) : Nat × QueueState :=
  let _ := source
  let run : ScrapeRun :=
    { id := s.next_run_id, scraper_name := scraper_name, status := "pending",
      started_at := some now, completed_at := none, products_found := none,
      error_message := none, duration_seconds := none }
  let job : Job :=
    { id := s.next_job_id, scraper_name := scraper_name, status := "pending",
      priority := priority, created_at := now, claimed_at := none,
      completed_at := none, worker_id := none, scrape_run_id := run.id,
      error_message := none, retry_count := 0, max_retries := 3 }
  (job.id, { s with jobs := s.jobs ++ [job], runs := s.runs ++ [run],
                    next_job_id := s.next_job_id + 1,
                    next_run_id := s.next_run_id + 1 })

/-- Row `b` strictly precedes row `a` in `ORDER BY priority DESC, created_at ASC`. -/
def betterCandidate (a b : Job) : Bool :=
  decide (a.priority < b.priority) ||
    (decide (b.priority = a.priority) && decide (b.created_at < a.created_at))

/-- Scan a list keeping the best row so far (first row wins full ties,
matching scan order by rowid). -/
def selectFrom (a : Job) : List Job → Job
  | [] => a
  | j :: rest => selectFrom (if betterCandidate a j then j else a) rest

/-- The rows satisfying `WHERE status = 'pending'`, in rowid order. -/
def pendingJobs (jobs : List Job) : List Job :=
  jobs.filter (fun j => j.status == "pending")

/-- The subquery of `claim_next`:
`SELECT id FROM job_queue WHERE status = 'pending'
 ORDER BY priority DESC, created_at ASC LIMIT 1` (here: the whole row). -/
def selectPending (jobs : List Job) : Option Job :=
  match pendingJobs jobs with
  | [] => none
  | j :: rest => some (selectFrom j rest)

/-- The SET clause of the claiming UPDATE. -/
def claimJob (worker_id : String) (now : Nat) (j : Job) : Job :=
  { j with status := "running", claimed_at := some now,
           worker_id := some worker_id }

/-- The mirroring UPDATE on `scrape_runs` performed by `claim_next`. -/
def runToRunning (now : Nat) (r : ScrapeRun) : ScrapeRun :=
  { r with status := "running", started_at := some now }

/-- Statement `UPDATE job_queue SET ... WHERE id = jid`, applied row by row. -/
def claimStep (jid : Nat) (worker_id : String) (now : Nat) (x : Job) :
    Job :=
  if x.id = jid then claimJob worker_id now x else x

/-- Embeds `JobQueue.claim_next(worker_id)` as written in `job_queue.py`
(lines 66-112): one `BEGIN IMMEDIATE` transaction that updates the single
best pending row to running and mirrors the paired scrape_run.  Note the
source signature takes no `max_running_jobs` argument and performs no
count of running rows. -/
def claim_next (s : QueueState) (worker_id : String) (now : Nat) :
    Option Job × QueueState :=
  match selectPending s.jobs with
  | none => (none, s)
  | some j =>
    let jobs := s.jobs.map (claimStep j.id worker_id now)
    let runs := s.runs.map (fun r =>
      if r.id = j.scrape_run_id then runToRunning now r else r)
    (some (claimJob worker_id now j), { s with jobs := jobs, runs := runs })

/-- The SET clause of `complete`'s job UPDATE. -/
def completeJobRow (success : Bool) (error_message : Option String)
    (now : Nat) (j : Job) : Job :=
  { j with status := if success then "completed" else "failed",
           completed_at := some now, error_message := error_message }

/-- The job UPDATE of `complete` applied row by row. -/
def completeStep (job_id : Nat) (success : Bool)
    (error_message : Option String) (now : Nat) (x : Job) : Job :=
  if x.id = job_id then completeJobRow success error_message now x else x

/-- Embeds `JobQueue.complete(job_id, success, products_found, error_message,
duration_seconds)` (lines 114-164): update the job row, then fetch its
`scrape_run_id` and mirror status, timestamps and payload into the
paired scrape_run. -/
def complete (s : QueueState) (job_id : Nat) (success : Bool)
    (products_found : Option Nat) (error_message : Option String)
    (duration_seconds : Option Nat) (now : Nat) : QueueState :=
  let status := if success then "completed" else "failed"
  let jobs := s.jobs.map (completeStep job_id success error_message now)
  match jobs.find? (fun x => x.id == job_id) with
  | none => { s with jobs := jobs }
  | some row =>
    let runs := s.runs.map (fun r =>
      if r.id = row.scrape_run_id then
        { r with status := status, completed_at := some now,
                 products_found := products_found,
                 error_message := error_message,
                 duration_seconds := duration_seconds }
      else r)
    { s with jobs := jobs, runs := runs }

/-- The fixed message written by the reclaimer. -/
def staleMessage : String := "Max retries exceeded (stale job)"

/-- Predicate `status = 'running' AND claimed_at < cutoff` (a SQL comparison with a
NULL `claimed_at` is not true). -/
def jobStale (cutoff : Nat) (j : Job) : Bool :=
  j.status == "running" &&
    (match j.claimed_at with
     | some t => decide (t < cutoff)
     | none => false)

/-- WHERE clause of the reclaimer's first UPDATE. -/
def resetEligible (cutoff : Nat) (j : Job) : Bool :=
  jobStale cutoff j && decide (j.retry_count < j.max_retries)

/-- WHERE clause of the reclaimer's third UPDATE. -/
def failEligible (cutoff : Nat) (j : Job) : Bool :=
  jobStale cutoff j && decide (j.max_retries ≤ j.retry_count)

/-- SET clause of the reclaimer's first UPDATE. -/
def resetJobRow (j : Job) : Job :=
  { j with status := "pending", claimed_at := none, worker_id := none,
           retry_count := j.retry_count + 1 }

/-- SET clause of the reclaimer's third UPDATE. -/
def failJobRow (now : Nat) (j : Job) : Job :=
  { j with status := "failed", error_message := some staleMessage,
           completed_at := some now }

/-- The reclaimer's first UPDATE applied row by row. -/
def resetStep (cutoff : Nat) (j : Job) : Job :=
  if resetEligible cutoff j then resetJobRow j else j

/-- The reclaimer's third UPDATE applied row by row. -/
def failStep (cutoff now : Nat) (j : Job) : Job :=
  if failEligible cutoff j then failJobRow now j else j

/-- Subquery `SELECT scrape_run_id FROM job_queue WHERE status = 'pending' AND
retry_count > 0` (the reclaimer's second UPDATE's subquery). -/
def pendingRetryRunIds (jobs : List Job) : List Nat :=
  (jobs.filter (fun j =>
    j.status == "pending" && decide (0 < j.retry_count))).map
    (fun j => j.scrape_run_id)

/-- Subquery `SELECT scrape_run_id FROM job_queue WHERE status = 'failed' AND
error_message = 'Max retries exceeded (stale job)'` (the fourth
UPDATE's subquery). -/
def failedStaleRunIds (jobs : List Job) : List Nat :=
  (jobs.filter (fun j =>
    j.status == "failed" && j.error_message == some staleMessage)).map
    (fun j => j.scrape_run_id)

/-- The reclaimer's second UPDATE applied row by row. -/
def runResetStep (ids : List Nat) (r : ScrapeRun) : ScrapeRun :=
  if ids.contains r.id then { r with status := "pending" } else r

/-- The reclaimer's fourth UPDATE applied row by row. -/
def runFailStep (ids : List Nat) (now : Nat) (r : ScrapeRun) : ScrapeRun :=
  if ids.contains r.id then
    { r with status := "failed", error_message := some staleMessage,
             completed_at := some now }
  else r

/-- Embeds `JobQueue.reclaim_stale_jobs()` (lines 166-234): one transaction of
four UPDATEs, in source order.
1. stale running jobs with retries left go back to pending
   (`retry_count + 1`, `claimed_at`/`worker_id` cleared); `cursor.rowcount`
   of this statement is the returned count;
2. scrape_runs whose id appears as `scrape_run_id` of any now-pending job
   with `retry_count > 0` go to pending;
3. stale running jobs out of retries become failed with the fixed
   message and `completed_at`;
4. scrape_runs whose id appears as `scrape_run_id` of any job that is
   failed with the fixed message become failed with the same message.
The source stamps `completed_at` in 3 and 4 with a second call to
`datetime.now`; we use the same `now` (the claims do not depend on the
microseconds between the two calls). -/
def reclaim_stale_jobs (s : QueueState) (now : Nat) : Nat × QueueState :=
  let cutoff := now - STALE_JOB_TIMEOUT_MINUTES * 60
  let count := (s.jobs.filter (resetEligible cutoff)).length
  let jobs1 := s.jobs.map (resetStep cutoff)
  let runs1 := s.runs.map (runResetStep (pendingRetryRunIds jobs1))
  let jobs2 := jobs1.map (failStep cutoff now)
  let runs2 := runs1.map (runFailStep (failedStaleRunIds jobs2) now)
  (count, { s with jobs := jobs2, runs := runs2 })

/-- Look a job up by id (`SELECT * FROM job_queue WHERE id = ?`). -/
def jobById (s : QueueState) (i : Nat) : Option Job :=
  s.jobs.find? (fun j => j.id == i)

/-- Look a scrape_run up by id. -/
def runById (s : QueueState) (i : Nat) : Option ScrapeRun :=
  s.runs.find? (fun r => r.id == i)

/-- One call to a mutating `JobQueue` method, with its arguments and the
wall-clock time at which it runs. -/
inductive QOp where
  | enqueueOp (scraper_name : String) (priority : Int) (source : String)
      (now : Nat)
  | claimOp (worker_id : String) (now : Nat)
  | completeOp (job_id : Nat) (success : Bool) (products_found : Option Nat)
      (error_message : Option String) (duration_seconds : Option Nat)
      (now : Nat)
  | reclaimOp (now : Nat)
  deriving DecidableEq

/-- Effect of one queue operation on the store. -/
def applyOp (s : QueueState) : QOp → QueueState
  | .enqueueOp n p src now => (enqueue s n p src now).2
  | .claimOp w now => (claim_next s w now).2
  | .completeOp jid succ pf em ds now => complete s jid succ pf em ds now
  | .reclaimOp now => (reclaim_stale_jobs s now).2

/-- Outcome of `await scraper.scrape()` inside `Worker._execute_job`:
either the call raised, or it returned a result with some number of
products. -/
inductive ScrapeOutcome where
  | raised (msg : String)
  | returned (products : Nat)
  deriving DecidableEq

/-- The arguments of the one `JobQueue.complete` call that ends a job
execution. -/
structure CompleteCall where
  job_id : Nat
  success : Bool
  products_found : Option Nat
  error_message : Option String
  duration_seconds : Option Nat
  deriving DecidableEq

/-- A sequence of `claim_next` calls, serialized the way the store's
`BEGIN IMMEDIATE` write transactions serialize concurrent callers; each
call carries the caller's worker id and its wall-clock time. -/
def claimMany (s : QueueState) :
    List (String × Nat) → List (Option Job) × QueueState
  | [] => ([], s)
  | c :: rest =>
    ((claim_next s c.1 c.2).1 ::
        (claimMany (claim_next s c.1 c.2).2 rest).1,
      (claimMany (claim_next s c.1 c.2).2 rest).2)

/-- Ids of the pending jobs of a store. -/
def pendingIds (s : QueueState) : List Nat :=
  (pendingJobs s.jobs).map Job.id

/-- Ids of the jobs returned by the successful calls of a call
sequence. -/
def claimedIds (results : List (Option Job)) : List Nat :=
  results.filterMap (fun r => r.map Job.id)

/-- The decision logic of `Worker._execute_job` (worker.py lines
118-236), abstracted over the scrape outcome and the measured duration:
a raise completes the job as failed with the message; a result with zero
products completes it as failed with "No products found" and
`products_found = 0`; a result with n > 0 products completes it as
succeeded with `products_found = n`. -/
def executeJobCall (job_id : Nat) (outcome : ScrapeOutcome)
    (duration : Nat) : CompleteCall :=
  match outcome with
  | .raised msg =>
    { job_id := job_id, success := false, products_found := none,
      error_message := some msg, duration_seconds := some duration }
  | .returned n =>
    if n = 0 then
      { job_id := job_id, success := false, products_found := some 0,
        error_message := some "No products found",
        duration_seconds := some duration }
    else
      { job_id := job_id, success := true, products_found := some n,
        error_message := none, duration_seconds := some duration }

/-- A row of the `scraper_schedules` table, as used by the scheduler. -/
structure Schedule where
  scraper_name : String
  enabled : Bool
  interval_minutes : Nat
  last_run : Option Nat
  next_run : Option Nat
  deriving DecidableEq

/-- Predicate `enabled = 1 AND (next_run IS NULL OR next_run <= now)`. -/
def isDue (now : Nat) (sch : Schedule) : Bool :=
  sch.enabled &&
    (match sch.next_run with
     | none => true
     | some t => decide (t ≤ now))

/-- Embeds `ProductDatabase.get_due_schedules` (db.py lines 2191-2204).  The SQL
also orders the result by `scraper_name`; the ordering plays no role in
the properties below, so rows are kept in table order. -/
def get_due_schedules (schedules : List Schedule) (now : Nat) :
    List Schedule :=
  schedules.filter (isDue now)

/-- An observable action of the scheduler. -/
inductive SchedEffect where
  | enqueueJob (scraper_name : String) (source : String)
  | scrapeDirectly (scraper_name : String)
  | saveResults (scraper_name : String)
  | updateScheduleLastRun (scraper_name : String) (last_run : Nat)
      (next_run : Nat)
  | skipActive (scraper_name : String)
  deriving DecidableEq

/-- Embeds `ScraperScheduler._run_scraper` (scheduler.py lines 84-108): scrape
directly, save the results when the scrape did not raise, and in the
`finally` block update the schedule with `last_run = now` and
`next_run = now + timedelta(minutes=interval_minutes)`, where `now` is
taken after the scrape finishes. -/
def run_scraper (sch : Schedule) (scrapeOk : Bool) (finish : Nat) :
    List SchedEffect :=
  [SchedEffect.scrapeDirectly sch.scraper_name] ++
    (if scrapeOk then [SchedEffect.saveResults sch.scraper_name] else []) ++
    [SchedEffect.updateScheduleLastRun sch.scraper_name finish
      (finish + sch.interval_minutes * 60)]

/-- Embeds `ScraperScheduler._check_and_run_due_scrapers` (scheduler.py lines
69-82): for each due schedule, skip when the scraper name is in the
in-process `_active_scrapers` set, otherwise run `_run_scraper` as a
task.  `scrapeOk` tells per scraper whether its scrape raises and
`finish` gives per scraper the time its run finishes. -/
def check_and_run_due_scrapers (schedules : List Schedule)
    (active : List String) (now : Nat) (scrapeOk : String → Bool)
    (finish : String → Nat) : List SchedEffect :=
  (get_due_schedules schedules now).flatMap (fun sch =>
    if active.contains sch.scraper_name then
      [SchedEffect.skipActive sch.scraper_name]
    else
      run_scraper sch (scrapeOk sch.scraper_name) (finish sch.scraper_name))

/-- The per-operation status transitions the (amended) claim C5 allows:
unchanged, or pending → running under a claim, running → terminal under
a complete, and under a reclaim running → pending with `retry_count`
incremented (when retries remain) or running → failed (when
`retry_count ≥ max_retries`). -/
def allowedStep (op : QOp) (j j' : Job) : Prop :=
  j'.status = j.status ∨
  match op with
  | QOp.enqueueOp _ _ _ _ => False
  | QOp.claimOp _ _ => j.status = "pending" ∧ j'.status = "running"
  | QOp.completeOp _ _ _ _ _ _ =>
      j.status = "running" ∧
        (j'.status = "completed" ∨ j'.status = "failed")
  | QOp.reclaimOp _ =>
      j.status = "running" ∧
        ((j'.status = "pending" ∧ j'.retry_count = j.retry_count + 1 ∧
            j.retry_count < j.max_retries) ∨
         (j'.status = "failed" ∧ j.max_retries ≤ j.retry_count))

/-- The usage restriction forced by the C5 counterexample: a
`completeOp` is only issued for a job that is currently running (which
is how the Worker uses `complete`: only on jobs it has claimed). -/
def completeTargetsRunning (s : QueueState) : QOp → Prop
  | QOp.completeOp jid _ _ _ _ _ =>
      ∃ j, jobById s jid = some j ∧ j.status = "running"
  | _ => True

/-- The queue state of the repository's own unit test
(`tests/test_job_queue_concurrency_limit.py`): two jobs enqueued and one
claimed by worker-1, so exactly one job is running. -/
def capTestState : QueueState :=
  (claim_next
    (enqueue (enqueue QueueState.empty "scraper_a" 0 "manual" 10).2
      "scraper_b" 0 "manual" 20).2
    "worker-1" 30).2

/-- A store holding one freshly enqueued (pending) job. -/
def pendingOnlyState : QueueState :=
  (enqueue QueueState.empty "scraper_a" 0 "manual" 10).2

/-- One running job claimed at time 30 by w1, paired with run 1. -/
def runningOnlyState : QueueState :=
  { jobs := [{ id := 1, scraper_name := "scraper_a", status := "running",
               priority := 0, created_at := 10, claimed_at := some 30,
               completed_at := none, worker_id := some "w1",
               scrape_run_id := 1, error_message := none, retry_count := 0,
               max_retries := 3 }],
    runs := [{ id := 1, scraper_name := "scraper_a", status := "running",
               started_at := some 30, completed_at := none,
               products_found := none, error_message := none,
               duration_seconds := none }],
    next_job_id := 2, next_run_id := 2 }

/-- One job claimed at time 3000 and out of retries (`retry_count =
max_retries = 3`), observed at time 6000 (claimed 50 minutes ago). -/
def exhaustedStaleState : QueueState :=
  { jobs := [{ id := 1, scraper_name := "scraper_a", status := "running",
               priority := 0, created_at := 0, claimed_at := some 3000,
               completed_at := none, worker_id := some "w1",
               scrape_run_id := 1, error_message := none, retry_count := 3,
               max_retries := 3 }],
    runs := [{ id := 1, scraper_name := "scraper_a", status := "running",
               started_at := some 3000, completed_at := none,
               products_found := none, error_message := none,
               duration_seconds := none }],
    next_job_id := 2, next_run_id := 2 }

/-- One running job claimed at time 3000 with `retry_count = 1 <
max_retries = 3`, paired with run 1. -/
def staleRetryState : QueueState :=
  { jobs := [{ id := 1, scraper_name := "scraper_a", status := "running",
               priority := 0, created_at := 0, claimed_at := some 3000,
               completed_at := none, worker_id := some "w1",
               scrape_run_id := 1, error_message := none, retry_count := 1,
               max_retries := 3 }],
    runs := [{ id := 1, scraper_name := "scraper_a", status := "running",
               started_at := some 3000, completed_at := none,
               products_found := none, error_message := none,
               duration_seconds := none }],
    next_job_id := 2, next_run_id := 2 }

/-- Two pending jobs: id 1 with priority 1 (older), id 2 with
priority 5 (newer). -/
def prioTestState : QueueState :=
  (enqueue (enqueue QueueState.empty "scraper_a" 1 "manual" 10).2
    "scraper_b" 5 "manual" 20).2

/-! ## Helper lemmas -/

theorem betterCandidate_irrefl (a : Job) : betterCandidate a a = false := by
  simp [betterCandidate]

/-- If `j` strictly precedes `a` and does not strictly precede `r`, then
`a` does not strictly precede `r` (the SQL sort order is a strict weak
order). -/
theorem betterCandidate_trans_neg {a j r : Job}
    (h1 : betterCandidate a j = true) (h2 : betterCandidate r j = false) :
    betterCandidate r a = false := by
  simp only [betterCandidate, Bool.or_eq_true, Bool.or_eq_false_iff,
    Bool.and_eq_true, Bool.and_eq_false_iff, decide_eq_true_eq,
    decide_eq_false_iff_not, not_lt] at h1 h2 ⊢
  omega

/-- If `j` does not strictly precede `a` and `a` does not strictly
precede `r`, then `j` does not strictly precede `r`. -/
theorem betterCandidate_neg_trans {a j r : Job}
    (h1 : betterCandidate a j = false) (h2 : betterCandidate r a = false) :
    betterCandidate r j = false := by
  simp only [betterCandidate, Bool.or_eq_false_iff, Bool.and_eq_false_iff,
    decide_eq_false_iff_not, not_lt] at h1 h2 ⊢
  omega

theorem selectFrom_mem (l : List Job) : ∀ a : Job,
    selectFrom a l = a ∨ selectFrom a l ∈ l := by
  induction l with
  | nil => intro a; exact Or.inl rfl
  | cons j t ih =>
    intro a
    simp only [selectFrom]
    rcases ih (if betterCandidate a j then j else a) with h | h
    · rw [h]
      split
      · exact Or.inr (List.mem_cons_self j t)
      · exact Or.inl rfl
    · exact Or.inr (List.mem_cons_of_mem j h)

theorem selectFrom_best (l : List Job) : ∀ a : Job,
    betterCandidate (selectFrom a l) a = false ∧
      ∀ x ∈ l, betterCandidate (selectFrom a l) x = false := by
  induction l with
  | nil =>
    intro a
    exact ⟨betterCandidate_irrefl a, by simp⟩
  | cons j t ih =>
    intro a
    simp only [selectFrom]
    by_cases h : betterCandidate a j = true
    · rw [if_pos h]
      obtain ⟨hj, ht⟩ := ih j
      refine ⟨betterCandidate_trans_neg h hj, ?_⟩
      intro x hx
      rcases List.mem_cons.mp hx with rfl | hx
      · exact hj
      · exact ht x hx
    · rw [if_neg h]
      obtain ⟨ha, ht⟩ := ih a
      refine ⟨ha, ?_⟩
      intro x hx
      rcases List.mem_cons.mp hx with rfl | hx
      · exact betterCandidate_neg_trans (Bool.eq_false_iff.mpr h) ha
      · exact ht x hx

theorem selectPending_some {jobs : List Job} {j : Job}
    (h : selectPending jobs = some j) :
    j ∈ jobs ∧ j.status = "pending" := by
  unfold selectPending at h
  cases hp : pendingJobs jobs with
  | nil => rw [hp] at h; exact absurd h (by simp)
  | cons a rest =>
    rw [hp] at h
    have hj : j = selectFrom a rest := by
      simpa using h.symm
    have hmem : j ∈ pendingJobs jobs := by
      rw [hp, hj]
      rcases selectFrom_mem rest a with h' | h'
      · rw [h']; exact List.mem_cons_self a rest
      · exact List.mem_cons_of_mem a h'
    unfold pendingJobs at hmem
    have := List.mem_filter.mp hmem
    exact ⟨this.1, by simpa using this.2⟩

theorem selectPending_maximal {jobs : List Job} {j : Job}
    (h : selectPending jobs = some j) :
    ∀ x ∈ jobs, x.status = "pending" → betterCandidate j x = false := by
  intro x hx hxp
  have hmem : x ∈ pendingJobs jobs :=
    List.mem_filter.mpr ⟨hx, by simpa using hxp⟩
  unfold selectPending at h
  cases hp : pendingJobs jobs with
  | nil => rw [hp] at hmem; exact absurd hmem (by simp)
  | cons a rest =>
    rw [hp] at h hmem
    have hj : j = selectFrom a rest := by simpa using h.symm
    obtain ⟨ha, ht⟩ := selectFrom_best rest a
    rcases List.mem_cons.mp hmem with rfl | hx'
    · rw [hj]; exact ha
    · rw [hj]; exact ht x hx'

theorem selectPending_eq_none {jobs : List Job}
    (h : selectPending jobs = none) :
    ∀ x ∈ jobs, x.status ≠ "pending" := by
  intro x hx hxp
  unfold selectPending at h
  cases hp : pendingJobs jobs with
  | nil =>
    have : ∀ a ∈ jobs, ¬(a.status == "pending") = true := by
      simpa [pendingJobs, List.filter_eq_nil_iff] using hp
    exact this x hx (by simpa using hxp)
  | cons a rest => rw [hp] at h; exact absurd h (by simp)

theorem selectPending_isSome {jobs : List Job} {x : Job}
    (hx : x ∈ jobs) (hxp : x.status = "pending") :
    ∃ j, selectPending jobs = some j := by
  cases h : selectPending jobs with
  | none => exact absurd hxp (selectPending_eq_none h x hx)
  | some j => exact ⟨j, rfl⟩

/-- Lookup `find?` commutes with a `map` that does not change the predicate. -/
theorem find?_map_pres {α : Type} {l : List α} {f : α → α} {p : α → Bool}
    (hf : ∀ a : α, p (f a) = p a) :
    (l.map f).find? p = (l.find? p).map f := by
  induction l with
  | nil => rfl
  | cons a t ih =>
    by_cases h : p a = true
    · rw [List.map_cons, List.find?_cons_of_pos _ (by rw [hf]; exact h),
        List.find?_cons_of_pos _ h]
      rfl
    · rw [List.map_cons,
        List.find?_cons_of_neg _ (by rw [hf]; simpa using h),
        List.find?_cons_of_neg _ (by simpa using h), ih]

/-- In a table with distinct ids, looking up the id of a member row
returns that row. -/
theorem find?_id_of_mem_nodup {l : List Job}
    (hn : (l.map Job.id).Nodup) {j : Job} (hj : j ∈ l) :
    l.find? (fun x => x.id == j.id) = some j := by
  induction l with
  | nil => exact absurd hj (by simp)
  | cons a t ih =>
    rcases List.mem_cons.mp hj with rfl | hj'
    · exact List.find?_cons_of_pos _ (by simp)
    · have hne : ¬(a.id == j.id) = true := by
        simp only [beq_iff_eq]
        intro he
        have : a.id ∈ t.map Job.id := by
          rw [he]; exact List.mem_map_of_mem Job.id hj'
        exact (List.nodup_cons.mp (by simpa using hn)).1 this
      rw [List.find?_cons_of_neg _ (by simpa using hne)]
      exact ih (List.nodup_cons.mp (by simpa using hn)).2 hj'

/-- Two member rows of a table with distinct ids that share an id are
equal. -/
theorem eq_of_id_eq_nodup {l : List Job}
    (hn : (l.map Job.id).Nodup) {a b : Job} (ha : a ∈ l) (hb : b ∈ l)
    (hid : a.id = b.id) : a = b :=
  List.inj_on_of_nodup_map hn ha hb hid

/-- The job table produced by `complete` is a pointwise update of the
old table (the second match arm only affects `runs`). -/
theorem complete_jobs_eq (s : QueueState) (job_id : Nat) (success : Bool)
    (products_found : Option Nat) (error_message : Option String)
    (duration_seconds : Option Nat) (now : Nat) :
    (complete s job_id success products_found error_message
        duration_seconds now).jobs =
      s.jobs.map (completeStep job_id success error_message now) := by
  unfold complete
  dsimp only
  split <;> (try split) <;> rfl

theorem claimStep_id (jid : Nat) (wid : String) (now : Nat) (x : Job) :
    (claimStep jid wid now x).id = x.id := by
  unfold claimStep claimJob; split <;> rfl

theorem completeStep_id (job_id : Nat) (success : Bool)
    (em : Option String) (now : Nat) (x : Job) :
    (completeStep job_id success em now x).id = x.id := by
  unfold completeStep completeJobRow; split <;> rfl

theorem resetStep_id (cutoff : Nat) (x : Job) :
    (resetStep cutoff x).id = x.id := by
  unfold resetStep resetJobRow; split <;> rfl

theorem failStep_id (cutoff now : Nat) (x : Job) :
    (failStep cutoff now x).id = x.id := by
  unfold failStep failJobRow; split <;> rfl

theorem resetStep_scrape_run_id (cutoff : Nat) (x : Job) :
    (resetStep cutoff x).scrape_run_id = x.scrape_run_id := by
  unfold resetStep resetJobRow; split <;> rfl

theorem failStep_scrape_run_id (cutoff now : Nat) (x : Job) :
    (failStep cutoff now x).scrape_run_id = x.scrape_run_id := by
  unfold failStep failJobRow; split <;> rfl

/-- Looking up a member row's id in a pointwise-updated table with
distinct ids yields the updated row. -/
theorem find?_id_map {l : List Job} {f : Job → Job}
    (hf : ∀ x : Job, (f x).id = x.id) (hn : (l.map Job.id).Nodup)
    {j : Job} (hj : j ∈ l) :
    (l.map f).find? (fun x => x.id == j.id) = some (f j) := by
  rw [find?_map_pres (fun a => by rw [hf]), find?_id_of_mem_nodup hn hj]
  rfl

/-- The two job UPDATEs of the reclaimer, as a double pointwise map. -/
theorem reclaim_jobs_eq (s : QueueState) (now : Nat) :
    (reclaim_stale_jobs s now).2.jobs =
      (s.jobs.map
          (resetStep (now - STALE_JOB_TIMEOUT_MINUTES * 60))).map
        (failStep (now - STALE_JOB_TIMEOUT_MINUTES * 60) now) := rfl

/-- The two scrape_run UPDATEs of the reclaimer. -/
theorem reclaim_runs_eq (s : QueueState) (now : Nat) :
    (reclaim_stale_jobs s now).2.runs =
      (s.runs.map (runResetStep (pendingRetryRunIds
          (s.jobs.map (resetStep (now - STALE_JOB_TIMEOUT_MINUTES * 60)))))).map
        (runFailStep (failedStaleRunIds
          ((s.jobs.map (resetStep (now - STALE_JOB_TIMEOUT_MINUTES * 60))).map
            (failStep (now - STALE_JOB_TIMEOUT_MINUTES * 60) now))) now) := rfl

theorem reclaim_count_eq (s : QueueState) (now : Nat) :
    (reclaim_stale_jobs s now).1 =
      (s.jobs.filter
        (resetEligible (now - STALE_JOB_TIMEOUT_MINUTES * 60))).length := rfl

/-- A job eligible for the fail UPDATE is not eligible for the reset
UPDATE. -/
theorem resetEligible_eq_false_of_failEligible {cutoff : Nat} {j : Job}
    (h : failEligible cutoff j = true) :
    resetEligible cutoff j = false := by
  simp only [failEligible, Bool.and_eq_true, decide_eq_true_eq] at h
  simp only [resetEligible, Bool.and_eq_false_iff]
  right
  simp only [decide_eq_false_iff_not, not_lt]
  exact h.2

/-- A reset-eligible job is running. -/
theorem status_running_of_resetEligible {cutoff : Nat} {j : Job}
    (h : resetEligible cutoff j = true) : j.status = "running" := by
  simp only [resetEligible, jobStale, Bool.and_eq_true, beq_iff_eq] at h
  exact h.1.1

/-- A fail-eligible job is running. -/
theorem status_running_of_failEligible {cutoff : Nat} {j : Job}
    (h : failEligible cutoff j = true) : j.status = "running" := by
  simp only [failEligible, jobStale, Bool.and_eq_true, beq_iff_eq] at h
  exact h.1.1

/-- Pointwise value of the composed job update of the reclaimer. -/
theorem reclaim_job_update (cutoff now : Nat) (j : Job) :
    failStep cutoff now (resetStep cutoff j) =
      if resetEligible cutoff j then resetJobRow j
      else if failEligible cutoff j then failJobRow now j
      else j := by
  by_cases hre : resetEligible cutoff j = true
  · have hstale : failEligible cutoff (resetJobRow j) = false := by
      simp [failEligible, jobStale, resetJobRow]
    simp [resetStep, failStep, hre, hstale]
  · simp only [resetStep, hre, if_neg, Bool.not_eq_true] at *
    simp [resetStep, failStep, hre]

theorem runResetStep_id (ids : List Nat) (r : ScrapeRun) :
    (runResetStep ids r).id = r.id := by
  unfold runResetStep; split <;> rfl

theorem runFailStep_id (ids : List Nat) (now : Nat) (r : ScrapeRun) :
    (runFailStep ids now r).id = r.id := by
  unfold runFailStep; split <;> rfl

theorem contains_nat_true_iff (l : List Nat) (a : Nat) :
    l.contains a = true ↔ a ∈ l := by
  simp [List.contains]

theorem contains_string_true_iff (l : List String) (a : String) :
    l.contains a = true ↔ a ∈ l := by
  simp [List.contains]

/-! ## The claims -/

/-- C6: each `enqueue` call creates, inside its one transaction, a
pending Job and a pending ScrapeRun whose id equals the new Job's
`scrape_run_id`, so immediately after the call both paired rows exist
with status "pending". -/
theorem enqueue_creates_paired_pending_rows (s : QueueState)
    (scraper_name : String) (priority : Int) (source : String) (now : Nat) :
    ∃ j ∈ ((enqueue s scraper_name priority source now).2).jobs,
      j.id = (enqueue s scraper_name priority source now).1 ∧
      j.status = "pending" ∧
      ∃ r ∈ ((enqueue s scraper_name priority source now).2).runs,
        r.id = j.scrape_run_id ∧ r.status = "pending" := by
  refine ⟨_, List.mem_append_right _ (List.mem_singleton_self _), rfl, rfl,
    _, List.mem_append_right _ (List.mem_singleton_self _), rfl, rfl⟩

/-- C9: `complete` never changes any job's `retry_count` or
`max_retries`, whatever its arguments: the multiset of
(id, retry_count, max_retries) triples in the job table is
unchanged row for row. -/
theorem complete_never_touches_retry_count (s : QueueState) (job_id : Nat)
    (success : Bool) (products_found : Option Nat)
    (error_message : Option String) (duration_seconds : Option Nat)
    (now : Nat) :
    (complete s job_id success products_found error_message
        duration_seconds now).jobs.map
        (fun j => (j.id, j.retry_count, j.max_retries)) =
      s.jobs.map (fun j => (j.id, j.retry_count, j.max_retries)) := by
  rw [complete_jobs_eq, List.map_map]
  apply List.map_congr_left
  intro j _
  by_cases h : j.id = job_id <;> simp [completeStep, completeJobRow, h]

/-- C8: a scrape that returns zero products is completed as a failure
with `products_found = 0` and error message "No products found"; more
generally `Worker._execute_job` reports success exactly when the scrape
returned a positive number of products. -/
theorem execute_job_zero_products_is_failure (job_id duration : Nat) :
    executeJobCall job_id (ScrapeOutcome.returned 0) duration =
      { job_id := job_id, success := false, products_found := some 0,
        error_message := some "No products found",
        duration_seconds := some duration } ∧
    ∀ outcome : ScrapeOutcome,
      (executeJobCall job_id outcome duration).success = true ↔
        ∃ n : Nat, outcome = ScrapeOutcome.returned n ∧ 0 < n := by
  refine ⟨rfl, ?_⟩
  intro outcome
  cases outcome with
  | raised msg => simp [executeJobCall]
  | returned n =>
    by_cases h : n = 0
    · subst h; simp [executeJobCall]
    · simp [executeJobCall, h, Nat.pos_of_ne_zero h]

theorem enqueue_jobs_eq (s : QueueState) (n : String) (p : Int)
    (src : String) (now : Nat) :
    ∃ newJob : Job, (enqueue s n p src now).2.jobs = s.jobs ++ [newJob] :=
  ⟨_, rfl⟩

theorem claim_next_state_of_none {s : QueueState} {w : String} {now : Nat}
    (h : selectPending s.jobs = none) : (claim_next s w now).2 = s := by
  unfold claim_next
  rw [h]

theorem claim_next_jobs_of_some {s : QueueState} {w : String} {now : Nat}
    {jsel : Job} (h : selectPending s.jobs = some jsel) :
    (claim_next s w now).2.jobs = s.jobs.map (claimStep jsel.id w now) := by
  unfold claim_next
  rw [h]

theorem claim_next_ids_eq (s : QueueState) (w : String) (n : Nat) :
    (claim_next s w n).2.jobs.map Job.id = s.jobs.map Job.id := by
  cases hsel : selectPending s.jobs with
  | none => rw [claim_next_state_of_none hsel]
  | some j =>
    rw [claim_next_jobs_of_some hsel, List.map_map]
    apply List.map_congr_left
    intro x _
    exact claimStep_id _ _ _ x

theorem pendingIds_nodup {s : QueueState}
    (hn : (s.jobs.map Job.id).Nodup) : (pendingIds s).Nodup := by
  unfold pendingIds pendingJobs
  exact hn.sublist ((List.filter_sublist s.jobs).map Job.id)

theorem pendingJobs_eq_nil_of_selectPending_none {jobs : List Job}
    (h : selectPending jobs = none) : pendingJobs jobs = [] := by
  unfold selectPending at h
  cases hp : pendingJobs jobs with
  | nil => rfl
  | cons a t => rw [hp] at h; exact absurd h (by simp)

/-- Claiming the selected pending job removes exactly its id from the
pending-id list. -/
theorem pendingJobs_map_claimStep (l : List Job) (jid : Nat) (w : String)
    (n : Nat) (j : Job) (hjid : j.id = jid) (hjp : j.status = "pending")
    (hn : (l.map Job.id).Nodup) (hj : j ∈ l) :
    (pendingJobs (l.map (claimStep jid w n))).map Job.id =
      ((pendingJobs l).map Job.id).erase jid := by
  induction l with
  | nil => cases hj
  | cons a t ih =>
    have hna : a.id ∉ t.map Job.id :=
      (List.nodup_cons.mp (by simpa using hn)).1
    have hnt : (t.map Job.id).Nodup :=
      (List.nodup_cons.mp (by simpa using hn)).2
    by_cases haid : a.id = jid
    · have haj : a = j := by
        rcases List.mem_cons.mp hj with h' | hjt
        · exact h'.symm
        · exact absurd (by
            rw [haid, ← hjid]
            exact List.mem_map_of_mem Job.id hjt) hna
      have hca : claimStep jid w n a = claimJob w n a := by
        unfold claimStep
        rw [if_pos haid]
      have hmt : t.map (claimStep jid w n) = t := by
        conv_rhs => rw [show t = t.map id from (List.map_id t).symm]
        apply List.map_congr_left
        intro x hx
        unfold claimStep
        rw [if_neg (fun he => hna (by
          rw [haid, ← he]
          exact List.mem_map_of_mem Job.id hx))]
        rfl
      rw [List.map_cons, hca, hmt]
      unfold pendingJobs
      rw [List.filter_cons, List.filter_cons,
        if_neg (by simp [claimJob]),
        if_pos (by rw [haj]; simp [hjp]),
        List.map_cons, haid, List.erase_cons_head]
    · have hjt : j ∈ t := by
        rcases List.mem_cons.mp hj with h' | hjt
        · exact absurd (h' ▸ hjid) haid
        · exact hjt
      have hca : claimStep jid w n a = a := by
        unfold claimStep
        rw [if_neg haid]
      rw [List.map_cons, hca]
      unfold pendingJobs at ih ⊢
      rw [List.filter_cons, List.filter_cons]
      by_cases hap : (a.status == "pending") = true
      · rw [if_pos (by simp at hap ⊢; exact hap),
          if_pos (by simp at hap ⊢; exact hap), List.map_cons,
          List.map_cons, List.erase_cons_tail (by simp [haid])]
        congr 1
        exact ih hnt hjt
      · rw [if_neg (by simpa using hap), if_neg (by simpa using hap)]
        exact ih hnt hjt

/-- C2: no double-claim.  For K `claim_next` callers — serialized by
the store's exclusive `BEGIN IMMEDIATE` write transactions, in any
order and at any times — against a store with M ≤ K pending jobs and
distinct job ids: the successful calls return M distinct job ids, every
claimed id belonged to a job that was pending before the sequence, and
the remaining K − M calls return none. -/
theorem claim_many_no_double_claim (s : QueueState)
    (calls : List (String × Nat))
    (hn : (s.jobs.map Job.id).Nodup)
    (hM : (pendingIds s).length ≤ calls.length) :
    (claimedIds (claimMany s calls).1).Nodup ∧
    (claimedIds (claimMany s calls).1).length = (pendingIds s).length ∧
    (∀ i ∈ claimedIds (claimMany s calls).1, i ∈ pendingIds s) ∧
    (claimMany s calls).1.count none =
      calls.length - (pendingIds s).length := by
  induction calls generalizing s with
  | nil =>
    have h0 : pendingIds s = [] :=
      List.eq_nil_of_length_eq_zero (Nat.le_zero.mp hM)
    simp [claimMany, claimedIds, h0]
  | cons c rest ih =>
    cases hsel : selectPending s.jobs with
    | none =>
      have hpe : pendingJobs s.jobs = [] :=
        pendingJobs_eq_nil_of_selectPending_none hsel
      have hpi : pendingIds s = [] := by
        unfold pendingIds
        rw [hpe]
        rfl
      have hfst : (claim_next s c.1 c.2).1 = none := by
        unfold claim_next
        rw [hsel]
      have hst : (claim_next s c.1 c.2).2 = s :=
        claim_next_state_of_none hsel
      obtain ⟨ihn, ihl, ihs, ihc⟩ :=
        ih s hn (by rw [hpi]; exact Nat.zero_le _)
      simp only [claimMany, hfst, hst]
      refine ⟨?_, ?_, ?_, ?_⟩
      · simpa [claimedIds] using ihn
      · simpa [claimedIds] using ihl
      · intro i hi
        exact ihs i (by simpa [claimedIds] using hi)
      · have hcc : (none :: (claimMany s rest).1).count none =
            (claimMany s rest).1.count none + 1 := by
          simp [List.count_cons]
        rw [hcc, ihc, hpi]
        simp
    | some j =>
      obtain ⟨hjm, hjp⟩ := selectPending_some hsel
      have hfst : (claim_next s c.1 c.2).1 =
          some (claimJob c.1 c.2 j) := by
        unfold claim_next
        rw [hsel]
      have hjobs : (claim_next s c.1 c.2).2.jobs =
          s.jobs.map (claimStep j.id c.1 c.2) :=
        claim_next_jobs_of_some hsel
      have hids : (claim_next s c.1 c.2).2.jobs.map Job.id =
          s.jobs.map Job.id := claim_next_ids_eq s c.1 c.2
      have hn' : ((claim_next s c.1 c.2).2.jobs.map Job.id).Nodup := by
        rw [hids]
        exact hn
      have herase : pendingIds (claim_next s c.1 c.2).2 =
          (pendingIds s).erase j.id := by
        unfold pendingIds
        rw [hjobs]
        exact pendingJobs_map_claimStep s.jobs j.id c.1 c.2 j rfl hjp hn hjm
      have hjidp : j.id ∈ pendingIds s := by
        unfold pendingIds pendingJobs
        exact List.mem_map_of_mem Job.id
          (List.mem_filter.mpr ⟨hjm, by simp [hjp]⟩)
      have hplen : 0 < (pendingIds s).length :=
        List.length_pos.mpr (List.ne_nil_of_mem hjidp)
      have hlen : (pendingIds s).length ≤ rest.length + 1 := by
        simpa using hM
      have hM' : (pendingIds (claim_next s c.1 c.2).2).length ≤
          rest.length := by
        rw [herase, List.length_erase_of_mem hjidp]
        omega
      obtain ⟨ihn, ihl, ihs, ihc⟩ := ih (claim_next s c.1 c.2).2 hn' hM'
      have hpnd : (pendingIds s).Nodup := pendingIds_nodup hn
      simp only [claimMany, hfst]
      have hcons : claimedIds (some (claimJob c.1 c.2 j) ::
          (claimMany (claim_next s c.1 c.2).2 rest).1) =
          j.id :: claimedIds (claimMany (claim_next s c.1 c.2).2 rest).1
          := by
        simp [claimedIds, claimJob]
      rw [hcons]
      refine ⟨?_, ?_, ?_, ?_⟩
      · rw [List.nodup_cons]
        refine ⟨?_, ihn⟩
        intro hmem
        have hin := ihs _ hmem
        rw [herase] at hin
        rw [hpnd.mem_erase_iff] at hin
        exact hin.1 rfl
      · rw [List.length_cons, ihl, herase,
          List.length_erase_of_mem hjidp]
        omega
      · intro i hi
        rcases List.mem_cons.mp hi with rfl | hi'
        · exact hjidp
        · have hin := ihs _ hi'
          rw [herase] at hin
          exact (hpnd.mem_erase_iff.mp hin).2
      · have hcc : (some (claimJob c.1 c.2 j) ::
            (claimMany (claim_next s c.1 c.2).2 rest).1).count none =
            (claimMany (claim_next s c.1 c.2).2 rest).1.count none := by
          simp [List.count_cons]
        rw [hcc, ihc, herase, List.length_erase_of_mem hjidp]
        simp only [List.length_cons]
        omega

/-- Witness for C2: two pending jobs, three callers — two distinct
claims and one none. -/
theorem claim_many_no_double_claim_witness :
    (claimedIds (claimMany
        (enqueue (enqueue QueueState.empty "scraper_a" 0 "manual" 10).2
          "scraper_b" 0 "manual" 20).2
        [("w1", 30), ("w2", 40), ("w3", 50)]).1).Nodup ∧
    (claimedIds (claimMany
        (enqueue (enqueue QueueState.empty "scraper_a" 0 "manual" 10).2
          "scraper_b" 0 "manual" 20).2
        [("w1", 30), ("w2", 40), ("w3", 50)]).1).length =
      (pendingIds
        (enqueue (enqueue QueueState.empty "scraper_a" 0 "manual" 10).2
          "scraper_b" 0 "manual" 20).2).length ∧
    (∀ i ∈ claimedIds (claimMany
        (enqueue (enqueue QueueState.empty "scraper_a" 0 "manual" 10).2
          "scraper_b" 0 "manual" 20).2
        [("w1", 30), ("w2", 40), ("w3", 50)]).1,
      i ∈ pendingIds
        (enqueue (enqueue QueueState.empty "scraper_a" 0 "manual" 10).2
          "scraper_b" 0 "manual" 20).2) ∧
    (claimMany
        (enqueue (enqueue QueueState.empty "scraper_a" 0 "manual" 10).2
          "scraper_b" 0 "manual" 20).2
        [("w1", 30), ("w2", 40), ("w3", 50)]).1.count none =
      [("w1", 30), ("w2", 40), ("w3", 50)].length -
        (pendingIds
          (enqueue (enqueue QueueState.empty "scraper_a" 0 "manual" 10).2
            "scraper_b" 0 "manual" 20).2).length :=
  claim_many_no_double_claim
    (enqueue (enqueue QueueState.empty "scraper_a" 0 "manual" 10).2
      "scraper_b" 0 "manual" 20).2
    [("w1", 30), ("w2", 40), ("w3", 50)] (by decide) (by decide)

/-- C1: evaluation of the source `claim_next` at the unit test's
scenario.  One job is already running, yet the next claim still
succeeds and returns the remaining pending job, leaving two jobs
running: the source `claim_next` takes no `max_running_jobs` argument
and never counts running jobs, so no concurrency cap exists where the
test (and the worker's call site) require one. -/
theorem claim_next_ignores_running_cap :
    (capTestState.jobs.filter (fun j => j.status == "running")).length
        = 1 ∧
    (claim_next capTestState "worker-2" 40).1 =
      some { id := 2, scraper_name := "scraper_b", status := "running",
             priority := 0, created_at := 20, claimed_at := some 40,
             completed_at := none, worker_id := some "worker-2",
             scrape_run_id := 2, error_message := none, retry_count := 0,
             max_retries := 3 } ∧
    ((claim_next capTestState "worker-2" 40).2.jobs.filter
        (fun j => j.status == "running")).length = 2 :=
  ⟨rfl, rfl, rfl⟩

/-- C10: the count returned by `reclaim_stale_jobs` equals the number of
jobs that the call moved from "running" to "pending"; jobs the call
moved to "failed" for exhausted retries are not part of the count (so
the call can fail jobs while returning 0: every fail-eligible job ends
"failed" yet only reset jobs are counted). -/
theorem reclaim_count_counts_only_reset_jobs (s : QueueState) (now : Nat)
    (hn : (s.jobs.map Job.id).Nodup) :
    (reclaim_stale_jobs s now).1 =
      (s.jobs.filter (fun j => j.status == "running" &&
        ((jobById (reclaim_stale_jobs s now).2 j.id).map Job.status
          == some "pending"))).length ∧
    ∀ j ∈ s.jobs,
      failEligible (now - STALE_JOB_TIMEOUT_MINUTES * 60) j = true →
      (jobById (reclaim_stale_jobs s now).2 j.id).map Job.status =
        some "failed" := by
  have hlook : ∀ j ∈ s.jobs, jobById (reclaim_stale_jobs s now).2 j.id =
      some (failStep (now - STALE_JOB_TIMEOUT_MINUTES * 60) now
        (resetStep (now - STALE_JOB_TIMEOUT_MINUTES * 60) j)) := by
    intro j hj
    unfold jobById
    rw [reclaim_jobs_eq,
      find?_map_pres (fun a => by rw [failStep_id]),
      find?_id_map (resetStep_id _) hn hj]
    rfl
  constructor
  · rw [reclaim_count_eq]
    congr 1
    apply List.filter_congr
    intro j hj
    rw [hlook j hj, reclaim_job_update]
    by_cases hre : resetEligible (now - STALE_JOB_TIMEOUT_MINUTES * 60) j
        = true
    · simp [hre, resetJobRow, status_running_of_resetEligible hre]
    · by_cases hfe : failEligible (now - STALE_JOB_TIMEOUT_MINUTES * 60) j
          = true
      · simp [hre, hfe, failJobRow,
          status_running_of_failEligible hfe]
      · simp only [hre, hfe, Bool.false_eq_true, if_false]
        symm
        by_cases hst : j.status = "running" <;> simp [hst]
  · intro j hj hfe
    rw [hlook j hj, reclaim_job_update,
      if_neg (by rw [resetEligible_eq_false_of_failEligible hfe]; exact
        Bool.false_ne_true), if_pos hfe]
    rfl

/-- C4: for every running job whose `claimed_at` is older than the
30-minute stale threshold when `reclaim_stale_jobs` runs, provided ids
are distinct and no other job shares its `scrape_run_id` (both hold in
every state the queue itself builds): with `retry_count < max_retries`
the job becomes exactly `resetJobRow j` (status "pending",
`retry_count + 1`, `claimed_at`/`worker_id` cleared) and its paired
ScrapeRun becomes "pending"; with `retry_count ≥ max_retries` the job
becomes exactly `failJobRow now j` (status "failed", error message
"Max retries exceeded (stale job)") and its paired ScrapeRun becomes
"failed" with the same message. -/
theorem reclaim_stale_job_transitions (s : QueueState) (now : Nat)
    (hn : (s.jobs.map Job.id).Nodup)
    (j : Job) (hj : j ∈ s.jobs)
    (hstat : j.status = "running")
    (t : Nat) (hcl : j.claimed_at = some t)
    (ht : t < now - STALE_JOB_TIMEOUT_MINUTES * 60)
    (r : ScrapeRun) (hr : runById s j.scrape_run_id = some r)
    (hpair : ∀ x ∈ s.jobs, x.scrape_run_id = j.scrape_run_id → x = j) :
    (j.retry_count < j.max_retries →
      jobById (reclaim_stale_jobs s now).2 j.id = some (resetJobRow j) ∧
      (runById (reclaim_stale_jobs s now).2 j.scrape_run_id).map
        ScrapeRun.status = some "pending") ∧
    (j.max_retries ≤ j.retry_count →
      jobById (reclaim_stale_jobs s now).2 j.id = some (failJobRow now j) ∧
      (runById (reclaim_stale_jobs s now).2 j.scrape_run_id).map
        (fun x => (x.status, x.error_message)) =
        some ("failed", some staleMessage)) := by
  have hstale : jobStale (now - STALE_JOB_TIMEOUT_MINUTES * 60) j
      = true := by
    simp [jobStale, hstat, hcl, ht]
  have hlook : jobById (reclaim_stale_jobs s now).2 j.id =
      some (failStep (now - STALE_JOB_TIMEOUT_MINUTES * 60) now
        (resetStep (now - STALE_JOB_TIMEOUT_MINUTES * 60) j)) := by
    unfold jobById
    rw [reclaim_jobs_eq,
      find?_map_pres (fun a => by rw [failStep_id]),
      find?_id_map (resetStep_id _) hn hj]
    rfl
  have hrlook : runById (reclaim_stale_jobs s now).2 j.scrape_run_id =
      some (runFailStep (failedStaleRunIds
          ((s.jobs.map (resetStep (now - STALE_JOB_TIMEOUT_MINUTES * 60))).map
            (failStep (now - STALE_JOB_TIMEOUT_MINUTES * 60) now))) now
        (runResetStep (pendingRetryRunIds
          (s.jobs.map (resetStep (now - STALE_JOB_TIMEOUT_MINUTES * 60)))) r)) := by
    unfold runById
    rw [reclaim_runs_eq,
      find?_map_pres (fun a => by rw [runFailStep_id]),
      find?_map_pres (fun a => by rw [runResetStep_id])]
    unfold runById at hr
    rw [hr]
    rfl
  have hrid : r.id = j.scrape_run_id := by
    unfold runById at hr
    simpa using List.find?_some hr
  constructor
  · intro hlt
    have hre : resetEligible (now - STALE_JOB_TIMEOUT_MINUTES * 60) j
        = true := by
      simp [resetEligible, hstale, hlt]
    constructor
    · rw [hlook, reclaim_job_update, if_pos hre]
    · -- the paired run is reset by UPDATE 2 and untouched by UPDATE 4
      have hmem : j.scrape_run_id ∈ pendingRetryRunIds
          (s.jobs.map (resetStep (now - STALE_JOB_TIMEOUT_MINUTES * 60))) := by
        unfold pendingRetryRunIds
        refine List.mem_map.mpr ⟨resetJobRow j, ?_, rfl⟩
        refine List.mem_filter.mpr ⟨?_, by simp [resetJobRow]⟩
        have : resetStep (now - STALE_JOB_TIMEOUT_MINUTES * 60) j =
            resetJobRow j := by
          unfold resetStep; rw [if_pos hre]
        exact this ▸ List.mem_map_of_mem _ hj
      have hnotfail : j.scrape_run_id ∉ failedStaleRunIds
          ((s.jobs.map (resetStep (now - STALE_JOB_TIMEOUT_MINUTES * 60))).map
            (failStep (now - STALE_JOB_TIMEOUT_MINUTES * 60) now)) := by
        intro hmemf
        unfold failedStaleRunIds at hmemf
        obtain ⟨x, hxf, hxsrid⟩ := List.mem_map.mp hmemf
        obtain ⟨hxmem, hxpred⟩ := List.mem_filter.mp hxf
        obtain ⟨x1, hx1mem, hx1eq⟩ := List.mem_map.mp hxmem
        obtain ⟨x0, hx0mem, hx0eq⟩ := List.mem_map.mp hx1mem
        have hsrid0 : x0.scrape_run_id = j.scrape_run_id := by
          rw [← hxsrid, ← hx1eq, ← hx0eq, failStep_scrape_run_id,
            resetStep_scrape_run_id]
        have hx0j : x0 = j := hpair x0 hx0mem hsrid0
        subst hx0j
        rw [← hx0eq] at hx1eq
        rw [show resetStep (now - STALE_JOB_TIMEOUT_MINUTES * 60) x0 =
            resetJobRow x0 from by unfold resetStep; rw [if_pos hre]]
          at hx1eq
        rw [show failStep (now - STALE_JOB_TIMEOUT_MINUTES * 60) now
            (resetJobRow x0) = resetJobRow x0 from by
          unfold failStep
          rw [if_neg (by simp [failEligible, jobStale, resetJobRow])]]
          at hx1eq
        rw [← hx1eq] at hxpred
        simp [resetJobRow] at hxpred
      rw [hrlook]
      rw [show runResetStep (pendingRetryRunIds
          (s.jobs.map (resetStep (now - STALE_JOB_TIMEOUT_MINUTES * 60)))) r
          = { r with status := "pending" } from by
        unfold runResetStep
        rw [if_pos ((contains_nat_true_iff _ _).mpr
          (by rw [hrid]; exact hmem))]]
      rw [show runFailStep (failedStaleRunIds
          ((s.jobs.map (resetStep (now - STALE_JOB_TIMEOUT_MINUTES * 60))).map
            (failStep (now - STALE_JOB_TIMEOUT_MINUTES * 60) now))) now
          { r with status := "pending" } =
          { r with status := "pending" } from by
        unfold runFailStep
        rw [if_neg (by
          simp only [Bool.not_eq_true]
          rw [Bool.eq_false_iff]
          intro hc
          have hin := (contains_nat_true_iff _ _).mp hc
          rw [hrid] at hin
          exact hnotfail hin)]]
      rfl
  · intro hge
    have hfe : failEligible (now - STALE_JOB_TIMEOUT_MINUTES * 60) j
        = true := by
      simp [failEligible, hstale, hge]
    have hre : resetEligible (now - STALE_JOB_TIMEOUT_MINUTES * 60) j
        = false := resetEligible_eq_false_of_failEligible hfe
    constructor
    · rw [hlook, reclaim_job_update, if_neg (by rw [hre]; exact
        Bool.false_ne_true), if_pos hfe]
    · have hnotreset : j.scrape_run_id ∉ pendingRetryRunIds
          (s.jobs.map (resetStep (now - STALE_JOB_TIMEOUT_MINUTES * 60))) := by
        intro hmemr
        unfold pendingRetryRunIds at hmemr
        obtain ⟨x, hxf, hxsrid⟩ := List.mem_map.mp hmemr
        obtain ⟨hxmem, hxpred⟩ := List.mem_filter.mp hxf
        obtain ⟨x0, hx0mem, hx0eq⟩ := List.mem_map.mp hxmem
        have hsrid0 : x0.scrape_run_id = j.scrape_run_id := by
          rw [← hxsrid, ← hx0eq, resetStep_scrape_run_id]
        have hx0j : x0 = j := hpair x0 hx0mem hsrid0
        subst hx0j
        rw [show resetStep (now - STALE_JOB_TIMEOUT_MINUTES * 60) x0 = x0
            from by unfold resetStep; rw [if_neg (by rw [hre]; exact
              Bool.false_ne_true)]] at hx0eq
        rw [← hx0eq] at hxpred
        simp [hstat] at hxpred
      have hmemf : j.scrape_run_id ∈ failedStaleRunIds
          ((s.jobs.map (resetStep (now - STALE_JOB_TIMEOUT_MINUTES * 60))).map
            (failStep (now - STALE_JOB_TIMEOUT_MINUTES * 60) now)) := by
        unfold failedStaleRunIds
        refine List.mem_map.mpr ⟨failJobRow now j, ?_, rfl⟩
        refine List.mem_filter.mpr ⟨?_, by simp [failJobRow]⟩
        have h1 : resetStep (now - STALE_JOB_TIMEOUT_MINUTES * 60) j = j := by
          unfold resetStep
          rw [if_neg (by rw [hre]; exact Bool.false_ne_true)]
        have h2 : failStep (now - STALE_JOB_TIMEOUT_MINUTES * 60) now j =
            failJobRow now j := by
          unfold failStep; rw [if_pos hfe]
        have heq : failJobRow now j =
            failStep (now - STALE_JOB_TIMEOUT_MINUTES * 60) now
              (resetStep (now - STALE_JOB_TIMEOUT_MINUTES * 60) j) := by
          rw [h1, h2]
        rw [heq]
        exact List.mem_map_of_mem _ (List.mem_map_of_mem _ hj)
      rw [hrlook]
      rw [show runResetStep (pendingRetryRunIds
          (s.jobs.map (resetStep (now - STALE_JOB_TIMEOUT_MINUTES * 60)))) r
          = r from by
        unfold runResetStep
        rw [if_neg (by
          simp only [Bool.not_eq_true]
          rw [Bool.eq_false_iff]
          intro hc
          have hin := (contains_nat_true_iff _ _).mp hc
          rw [hrid] at hin
          exact hnotreset hin)]]
      rw [show runFailStep (failedStaleRunIds
          ((s.jobs.map (resetStep (now - STALE_JOB_TIMEOUT_MINUTES * 60))).map
            (failStep (now - STALE_JOB_TIMEOUT_MINUTES * 60) now))) now r
          = { r with status := "failed", error_message := some staleMessage,
                     completed_at := some now } from by
        unfold runFailStep
        rw [if_pos ((contains_nat_true_iff _ _).mpr
          (by rw [hrid]; exact hmemf))]]
      rfl

/-- Witness for C4: at time 6000 the job of `staleRetryState` was
claimed 50 minutes ago, beyond the 30-minute threshold. -/
theorem reclaim_stale_job_transitions_witness :
    ((1 : Nat) < 3 →
      jobById (reclaim_stale_jobs staleRetryState 6000).2 1 =
        some (resetJobRow
          { id := 1, scraper_name := "scraper_a", status := "running",
            priority := 0, created_at := 0, claimed_at := some 3000,
            completed_at := none, worker_id := some "w1",
            scrape_run_id := 1, error_message := none, retry_count := 1,
            max_retries := 3 }) ∧
      (runById (reclaim_stale_jobs staleRetryState 6000).2 1).map
        ScrapeRun.status = some "pending") ∧
    ((3 : Nat) ≤ 1 →
      jobById (reclaim_stale_jobs staleRetryState 6000).2 1 =
        some (failJobRow 6000
          { id := 1, scraper_name := "scraper_a", status := "running",
            priority := 0, created_at := 0, claimed_at := some 3000,
            completed_at := none, worker_id := some "w1",
            scrape_run_id := 1, error_message := none, retry_count := 1,
            max_retries := 3 }) ∧
      (runById (reclaim_stale_jobs staleRetryState 6000).2 1).map
        (fun x => (x.status, x.error_message)) =
        some ("failed", some staleMessage)) :=
  reclaim_stale_job_transitions staleRetryState 6000 (by decide)
    { id := 1, scraper_name := "scraper_a", status := "running",
      priority := 0, created_at := 0, claimed_at := some 3000,
      completed_at := none, worker_id := some "w1",
      scrape_run_id := 1, error_message := none, retry_count := 1,
      max_retries := 3 }
    (by decide) rfl 3000 rfl (by decide)
    { id := 1, scraper_name := "scraper_a", status := "running",
      started_at := some 3000, completed_at := none,
      products_found := none, error_message := none,
      duration_seconds := none }
    rfl (by decide)

/-- Witness for C10 at a store whose only job is stale and out of
retries: the count is 0 even though the job is failed by the call. -/
theorem reclaim_count_counts_only_reset_jobs_witness :
    (reclaim_stale_jobs exhaustedStaleState 6000).1 =
      (exhaustedStaleState.jobs.filter (fun j => j.status == "running" &&
        ((jobById (reclaim_stale_jobs exhaustedStaleState 6000).2
            j.id).map Job.status == some "pending"))).length ∧
    ∀ j ∈ exhaustedStaleState.jobs,
      failEligible (6000 - STALE_JOB_TIMEOUT_MINUTES * 60) j = true →
      (jobById (reclaim_stale_jobs exhaustedStaleState 6000).2 j.id).map
          Job.status = some "failed" :=
  reclaim_count_counts_only_reset_jobs exhaustedStaleState 6000 (by decide)

/-- C7: whenever at least one pending job exists, `claim_next` claims
and returns a pending job such that no pending job has strictly higher
priority, and none with equal priority was created earlier: highest
`priority` first, FIFO by `created_at` within a priority tier. -/
theorem claim_next_orders_by_priority_then_age (s : QueueState)
    (worker_id : String) (now : Nat) (x : Job)
    (hx : x ∈ s.jobs) (hxp : x.status = "pending") :
    ∃ j, j ∈ s.jobs ∧ j.status = "pending" ∧
      (claim_next s worker_id now).1 = some (claimJob worker_id now j) ∧
      ∀ y ∈ s.jobs, y.status = "pending" →
        y.priority ≤ j.priority ∧
        (y.priority = j.priority → j.created_at ≤ y.created_at) := by
  obtain ⟨j, hj⟩ := selectPending_isSome hx hxp
  obtain ⟨hjm, hjp⟩ := selectPending_some hj
  refine ⟨j, hjm, hjp, ?_, ?_⟩
  · unfold claim_next
    rw [hj]
  · intro y hy hyp
    have hb := selectPending_maximal hj y hy hyp
    simp only [betterCandidate, Bool.or_eq_false_iff,
      Bool.and_eq_false_iff, decide_eq_false_iff_not, not_lt] at hb
    refine ⟨hb.1, fun he => ?_⟩
    rcases hb.2 with h | h
    · exact absurd he h
    · omega

/-- Witness for C7 on a store with two pending jobs of priorities 1
and 5. -/
theorem claim_next_orders_by_priority_then_age_witness :
    ∃ j, j ∈ prioTestState.jobs ∧ j.status = "pending" ∧
      (claim_next prioTestState "w1" 50).1 = some (claimJob "w1" 50 j) ∧
      ∀ y ∈ prioTestState.jobs, y.status = "pending" →
        y.priority ≤ j.priority ∧
        (y.priority = j.priority → j.created_at ≤ y.created_at) :=
  claim_next_orders_by_priority_then_age prioTestState "w1" 50
    { id := 1, scraper_name := "scraper_a", status := "pending",
      priority := 1, created_at := 10, claimed_at := none,
      completed_at := none, worker_id := none, scrape_run_id := 1,
      error_message := none, retry_count := 0, max_retries := 3 }
    (by decide) rfl

/-- C5 (amended): over any queue operation with arbitrary arguments —
restricted, as the counterexample forces, to `complete` calls that
target a currently running job, which is how the Worker issues them — a
job's status only changes along pending → running → completed/failed,
plus the reclaimer's running → pending (with `retry_count`
incremented, only when `retry_count < max_retries`) and
running → failed (only when `retry_count ≥ max_retries`). -/
theorem job_status_transitions (s : QueueState) (op : QOp)
    (hn : (s.jobs.map Job.id).Nodup)
    (hc : completeTargetsRunning s op)
    (i : Nat) (j j' : Job)
    (hj : jobById s i = some j)
    (hj' : jobById (applyOp s op) i = some j') :
    allowedStep op j j' := by
  unfold jobById at hj
  have hjm : j ∈ s.jobs := List.mem_of_find?_eq_some hj
  have hjid : j.id = i := by simpa using List.find?_some hj
  cases op with
  | enqueueOp n p src now =>
    obtain ⟨newJob, hjobs⟩ := enqueue_jobs_eq s n p src now
    simp only [applyOp] at hj'
    unfold jobById at hj'
    rw [hjobs, List.find?_append, hj] at hj'
    simp only [Option.or_some] at hj'
    left
    rw [(Option.some.injEq _ _).mp hj'.symm]
  | claimOp w now =>
    cases hsel : selectPending s.jobs with
    | none =>
      simp only [applyOp] at hj'
      unfold jobById at hj'
      rw [claim_next_state_of_none hsel, hj] at hj'
      left
      rw [(Option.some.injEq _ _).mp hj'.symm]
    | some jsel =>
      simp only [applyOp] at hj'
      unfold jobById at hj'
      rw [claim_next_jobs_of_some hsel,
        find?_map_pres (fun a => by rw [claimStep_id]), hj] at hj'
      have hj'eq : j' = claimStep jsel.id w now j := by
        simpa using hj'.symm
      by_cases hid : j.id = jsel.id
      · obtain ⟨hselm, hselp⟩ := selectPending_some hsel
        have hjj : j = jsel := eq_of_id_eq_nodup hn hjm hselm hid
        right
        refine ⟨by rw [hjj]; exact hselp, ?_⟩
        rw [hj'eq]
        unfold claimStep
        rw [if_pos hid]
        rfl
      · left
        rw [hj'eq]
        unfold claimStep
        rw [if_neg hid]
  | completeOp jid succ pf em ds now =>
    simp only [applyOp] at hj'
    unfold jobById at hj'
    rw [complete_jobs_eq,
      find?_map_pres (fun a => by rw [completeStep_id]), hj] at hj'
    have hj'eq : j' = completeStep jid succ em now j := by
      simpa using hj'.symm
    by_cases hid : j.id = jid
    · obtain ⟨jr, hjr, hjrs⟩ := hc
      unfold jobById at hjr
      have hieq : i = jid := by rw [← hjid, hid]
      rw [← hieq, hj] at hjr
      have hjjr : j = jr := by simpa using hjr
      right
      refine ⟨by rw [hjjr]; exact hjrs, ?_⟩
      rw [hj'eq]
      unfold completeStep
      rw [if_pos hid]
      cases succ with
      | true => exact Or.inl rfl
      | false => exact Or.inr rfl
    · left
      rw [hj'eq]
      unfold completeStep
      rw [if_neg hid]
  | reclaimOp now =>
    simp only [applyOp] at hj'
    unfold jobById at hj'
    rw [reclaim_jobs_eq,
      find?_map_pres (fun a => by rw [failStep_id]),
      find?_map_pres (fun a => by rw [resetStep_id]), hj] at hj'
    have hj'eq : j' = failStep (now - STALE_JOB_TIMEOUT_MINUTES * 60) now
        (resetStep (now - STALE_JOB_TIMEOUT_MINUTES * 60) j) := by
      simpa using hj'.symm
    rw [reclaim_job_update] at hj'eq
    by_cases hre : resetEligible (now - STALE_JOB_TIMEOUT_MINUTES * 60) j
        = true
    · rw [if_pos hre] at hj'eq
      right
      refine ⟨status_running_of_resetEligible hre, Or.inl ?_⟩
      have hre2 := hre
      simp only [resetEligible, Bool.and_eq_true, decide_eq_true_eq] at hre2
      exact ⟨by rw [hj'eq]; rfl, by rw [hj'eq]; rfl, hre2.2⟩
    · rw [if_neg hre] at hj'eq
      by_cases hfe : failEligible (now - STALE_JOB_TIMEOUT_MINUTES * 60) j
          = true
      · rw [if_pos hfe] at hj'eq
        right
        refine ⟨status_running_of_failEligible hfe, Or.inr ?_⟩
        have hfe2 := hfe
        simp only [failEligible, Bool.and_eq_true, decide_eq_true_eq] at hfe2
        exact ⟨by rw [hj'eq]; rfl, hfe2.2⟩
      · rw [if_neg hfe] at hj'eq
        left
        rw [hj'eq]

/-- Witness for C5 (amended): completing the running job of
`runningOnlyState` is an allowed running → completed transition. -/
theorem job_status_transitions_witness :
    allowedStep (QOp.completeOp 1 true (some 2) none (some 3) 40)
      { id := 1, scraper_name := "scraper_a", status := "running",
        priority := 0, created_at := 10, claimed_at := some 30,
        completed_at := none, worker_id := some "w1",
        scrape_run_id := 1, error_message := none, retry_count := 0,
        max_retries := 3 }
      { id := 1, scraper_name := "scraper_a", status := "completed",
        priority := 0, created_at := 10, claimed_at := some 30,
        completed_at := some 40, worker_id := some "w1",
        scrape_run_id := 1, error_message := none, retry_count := 0,
        max_retries := 3 } :=
  job_status_transitions runningOnlyState
    (QOp.completeOp 1 true (some 2) none (some 3) 40) (by decide)
    ⟨{ id := 1, scraper_name := "scraper_a", status := "running",
       priority := 0, created_at := 10, claimed_at := some 30,
       completed_at := none, worker_id := some "w1",
       scrape_run_id := 1, error_message := none, retry_count := 0,
       max_retries := 3 }, rfl, rfl⟩
    1 _ _ rfl rfl

/-- C5 counterexample: `complete` does not check the current status, so
a `completeOp` on a job that is still "pending" moves it directly to
"completed", a transition the claim says never occurs. -/
theorem complete_moves_pending_job_directly_to_completed :
    (jobById pendingOnlyState 1).map Job.status = some "pending" ∧
    (jobById (applyOp pendingOnlyState
        (QOp.completeOp 1 true (some 5) none (some 1) 20)) 1).map
        Job.status = some "completed" :=
  ⟨rfl, rfl⟩

/-- C3 (amended): on each tick, the scheduler produces no enqueue at
all; a due schedule (member of `get_due_schedules`, i.e. enabled with
`next_run` null or ≤ now) whose scraper name is in the in-process
active set is skipped, and one whose name is not active is run by the
scheduler itself: its effects include a direct scrape and a schedule
update setting `last_run` to the scrape's finish time and `next_run`
to finish + interval_minutes. -/
theorem scheduler_tick_behavior (schedules : List Schedule)
    (active : List String) (now : Nat) (scrapeOk : String → Bool)
    (finish : String → Nat) (sch : Schedule)
    (hdue : sch ∈ get_due_schedules schedules now) :
    (∀ nm src : String, SchedEffect.enqueueJob nm src ∉
        check_and_run_due_scrapers schedules active now scrapeOk finish) ∧
    (sch ∈ schedules ∧ sch.enabled = true ∧
      (sch.next_run = none ∨ ∃ t, sch.next_run = some t ∧ t ≤ now)) ∧
    (sch.scraper_name ∈ active →
      SchedEffect.skipActive sch.scraper_name ∈
        check_and_run_due_scrapers schedules active now scrapeOk finish) ∧
    (sch.scraper_name ∉ active →
      SchedEffect.scrapeDirectly sch.scraper_name ∈
        check_and_run_due_scrapers schedules active now scrapeOk finish ∧
      SchedEffect.updateScheduleLastRun sch.scraper_name
          (finish sch.scraper_name)
          (finish sch.scraper_name + sch.interval_minutes * 60) ∈
        check_and_run_due_scrapers schedules active now scrapeOk finish) := by
  refine ⟨?_, ?_, ?_, ?_⟩
  · intro nm src h
    obtain ⟨b, hb, he⟩ := List.mem_flatMap.mp h
    by_cases hc : active.contains b.scraper_name = true
    · rw [if_pos hc] at he
      simp at he
    · rw [if_neg hc] at he
      unfold run_scraper at he
      rcases List.mem_append.mp he with he' | he'
      · rcases List.mem_append.mp he' with he'' | he''
        · simp at he''
        · split at he'' <;> simp at he''
      · simp at he'
  · unfold get_due_schedules at hdue
    obtain ⟨hmem, hpred⟩ := List.mem_filter.mp hdue
    unfold isDue at hpred
    rw [Bool.and_eq_true] at hpred
    refine ⟨hmem, hpred.1, ?_⟩
    have h2 := hpred.2
    cases hnr : sch.next_run with
    | none => exact Or.inl rfl
    | some t =>
      rw [hnr] at h2
      exact Or.inr ⟨t, rfl, by simpa using h2⟩
  · intro hact
    refine List.mem_flatMap.mpr ⟨sch, hdue, ?_⟩
    rw [if_pos ((contains_string_true_iff _ _).mpr hact)]
    exact List.mem_singleton_self _
  · intro hact
    have hc : ¬active.contains sch.scraper_name = true := by
      intro h
      exact hact ((contains_string_true_iff _ _).mp h)
    constructor
    · refine List.mem_flatMap.mpr ⟨sch, hdue, ?_⟩
      rw [if_neg hc]
      simp [run_scraper]
    · refine List.mem_flatMap.mpr ⟨sch, hdue, ?_⟩
      rw [if_neg hc]
      simp [run_scraper]

/-- Witness for C3 (amended) on one enabled, due schedule with an empty
active set. -/
theorem scheduler_tick_behavior_witness :
    (∀ nm src : String, SchedEffect.enqueueJob nm src ∉
        check_and_run_due_scrapers
          [{ scraper_name := "demo", enabled := true,
             interval_minutes := 60, last_run := none, next_run := none }]
          [] 0 (fun _ => true) (fun _ => 100)) ∧
    ({ scraper_name := "demo", enabled := true, interval_minutes := 60,
       last_run := none, next_run := none : Schedule } ∈
        [{ scraper_name := "demo", enabled := true, interval_minutes := 60,
           last_run := none, next_run := none : Schedule }] ∧
      (true : Bool) = true ∧
      ((none : Option Nat) = none ∨
        ∃ t, (none : Option Nat) = some t ∧ t ≤ 0)) ∧
    ("demo" ∈ ([] : List String) →
      SchedEffect.skipActive "demo" ∈
        check_and_run_due_scrapers
          [{ scraper_name := "demo", enabled := true,
             interval_minutes := 60, last_run := none, next_run := none }]
          [] 0 (fun _ => true) (fun _ => 100)) ∧
    ("demo" ∉ ([] : List String) →
      SchedEffect.scrapeDirectly "demo" ∈
        check_and_run_due_scrapers
          [{ scraper_name := "demo", enabled := true,
             interval_minutes := 60, last_run := none, next_run := none }]
          [] 0 (fun _ => true) (fun _ => 100) ∧
      SchedEffect.updateScheduleLastRun "demo" 100 (100 + 60 * 60) ∈
        check_and_run_due_scrapers
          [{ scraper_name := "demo", enabled := true,
             interval_minutes := 60, last_run := none, next_run := none }]
          [] 0 (fun _ => true) (fun _ => 100)) :=
  scheduler_tick_behavior
    [{ scraper_name := "demo", enabled := true, interval_minutes := 60,
       last_run := none, next_run := none }]
    [] 0 (fun _ => true) (fun _ => 100)
    { scraper_name := "demo", enabled := true, interval_minutes := 60,
      last_run := none, next_run := none }
    (by decide)

/-- C3 counterexample: on a tick with one enabled, due schedule and an
empty active set, the scheduler's effects are exactly a direct scrape, a
result save and a schedule update; in particular it never produces an
enqueue, and it does scrape itself. -/
theorem scheduler_tick_scrapes_directly_and_never_enqueues :
    check_and_run_due_scrapers
        [{ scraper_name := "demo", enabled := true, interval_minutes := 60,
           last_run := none, next_run := none }] [] 0 (fun _ => true)
        (fun _ => 100) =
      [SchedEffect.scrapeDirectly "demo", SchedEffect.saveResults "demo",
       SchedEffect.updateScheduleLastRun "demo" 100 3700] ∧
    SchedEffect.enqueueJob "demo" "scheduled" ∉
      check_and_run_due_scrapers
        [{ scraper_name := "demo", enabled := true, interval_minutes := 60,
           last_run := none, next_run := none }] [] 0 (fun _ => true)
        (fun _ => 100) ∧
    SchedEffect.scrapeDirectly "demo" ∈
      check_and_run_due_scrapers
        [{ scraper_name := "demo", enabled := true, interval_minutes := 60,
           last_run := none, next_run := none }] [] 0 (fun _ => true)
        (fun _ => 100) := by
  refine ⟨rfl, by decide, by decide⟩
